import Mathlib

/-!
Verification of the concurrent load-testing harness of the Movie repository
(`tests/performance-test.js`).  The JavaScript is shallowly embedded: promises
are modelled by an environment function giving, for each dispatched request,
either a resolved response or a network-level rejection; JavaScript's
non-finite numbers (`NaN`, `Infinity`) that arise from empty statistics are
encoded as `none`.
-/

/-- `Math.round` on an exact rational: rounds half toward positive infinity,
i.e. `⌊q + 1/2⌋`, written with integer Euclidean division so that it
evaluates by kernel reduction (`jsRound_eq_floor` below proves the floor
characterisation). -/
def jsRound (q : ℚ) : ℤ := (2 * q.num + q.den) / (2 * (q.den : ℤ))

/-- Result of one dispatched HTTP request as seen by the promise returned by
`makeRequest`: either the response resolves (status code, elapsed millis,
response byte size) or the request emits `'error'` and the promise rejects. -/
inductive ReqResult where
  | ok (statusCode duration responseSize : Nat)
  | transportError (message : String)
  deriving Repr, DecidableEq

/-- Whether the promise resolves (no network-level failure). -/
def ReqResult.isResolved : ReqResult → Bool
  | .ok _ _ _ => true
  | .transportError _ => false

/-- The object `makeRequest` resolves with
(`{statusCode, duration, responseSize, success}`). -/
structure RequestOutcome where
  statusCode : Nat
  duration : Nat
  responseSize : Nat
  success : Bool
  deriving Repr, DecidableEq

/-- `makeRequest` (performance-test.js lines 71-116): on response end it
resolves with the outcome, `success` iff the status code is in `[200, 300)`;
on a request error it rejects with the error. -/
def makeRequest (env : Nat → ReqResult) (i : Nat) : Except String RequestOutcome :=
  match env i with
  | .ok st d sz => .ok ⟨st, d, sz, decide (200 ≤ st ∧ st < 300)⟩
  | .transportError msg => .error msg

/-- `Promise.all` over a list of settled promises: resolves with the list of
values when all resolve, otherwise rejects with the first rejection. -/
def promiseAll : List (Except String RequestOutcome) →
    Except String (List RequestOutcome)
  | [] => .ok []
  | .error e :: _ => .error e
  | .ok o :: rest =>
    match promiseAll rest with
    | .error e => .error e
    | .ok l => .ok (o :: l)

/-- The batch partition made by the loop
`for (let batch = 0; batch < totalRequests; batch += concurrency)`
(lines 128-134): consecutive groups of request indices of size
`min concurrency remaining`, starting at `start`.  With `c = 0` the
JavaScript loop would never terminate; the model returns `[]` there. -/
def requestGroupsAux (c : Nat) : Nat → Nat → Nat → List (List Nat)
  | 0, _, _ => []
  | f + 1, n, start =>
    if n = 0 then []
    else
      ((List.range (min c n)).map (· + start)) ::
        requestGroupsAux c f (n - min c n) (start + min c n)

/-- Entry point of the partition; the fuel `n` suffices because each
non-empty group removes at least one request when `c > 0`. -/
def requestGroups (c : Nat) (n : Nat) (start : Nat) : List (List Nat) :=
  if c = 0 then [] else requestGroupsAux c n n start

/-- One group: dispatch every member through `makeRequest` and `Promise.all`
the results (lines 132-137). -/
def runGroup (env : Nat → ReqResult) (g : List Nat) :
    Except String (List RequestOutcome) :=
  promiseAll (g.map (makeRequest env))

/-- The batch loop body (lines 136-147): on a resolved `Promise.all` the
group's outcomes are appended to `results`; on a rejection the error is
logged and nothing from that group is recorded, and the loop continues with
the next group. -/
def runGroups (env : Nat → ReqResult) : List (List Nat) → List RequestOutcome
  | [] => []
  | g :: gs =>
    (match runGroup env g with
     | .ok l => l
     | .error _ => []) ++ runGroups env gs

/-- `Math.min(...durations)` over a possibly-empty list; the empty case is
`Infinity` in JavaScript, encoded `none`. -/
def jsMinList (l : List Nat) : Option Nat :=
  l.foldr (fun a acc => match acc with
    | none => some a
    | some b => some (Nat.min a b)) none

/-- `Math.max(...durations)`; the empty case is `-Infinity`, encoded `none`. -/
def jsMaxList (l : List Nat) : Option Nat :=
  l.foldr (fun a acc => match acc with
    | none => some a
    | some b => some (Nat.max a b)) none

/-- The statistics block of `testConcurrentConnections` (lines 149-180)
together with the raw recorded outcome list.  `totalDuration` is the measured
wall clock of the whole loop, supplied by the environment.  Fields that
JavaScript leaves `NaN` or `±Infinity` when `results` is empty (average,
min, max, success rate on `totalRequests = 0`, throughput on zero duration)
are encoded as `none`. -/
structure BatchRun where
  results : List RequestOutcome
  executed : Nat
  successfulRequests : Nat
  failedRequests : Nat
  totalDuration : Nat
  successRatePct : Option ℤ
  requestsPerSecond : Option ℤ
  avgDuration : Option ℚ
  minDuration : Option Nat
  maxDuration : Option Nat
  deriving Repr, DecidableEq

/-- The whole of `testConcurrentConnections` (lines 119-191) for one call:
run the groups, then compute the statistics of the recorded results.
`executed` counts the requests actually dispatched (every group member is
dispatched when its promise is created, before `Promise.all` settles). -/
def testRunBatches (env : Nat → ReqResult) (c n totalDuration : Nat) : BatchRun :=
  let groups := requestGroups c n 0
  let results := runGroups env groups
  let successful := (results.filter (·.success)).length
  let durations : List Nat := results.map (·.duration)
  { results := results
    executed := groups.flatten.length
    successfulRequests := successful
    failedRequests := results.length - successful
    totalDuration := totalDuration
    successRatePct :=
      if n = 0 then none else some (jsRound ((successful : ℚ) / n * 100))
    requestsPerSecond :=
      if totalDuration = 0 then none
      else some (jsRound ((n : ℚ) / totalDuration * 1000))
    avgDuration :=
      if durations.isEmpty then none
      else some ((durations.sum : ℚ) / durations.length)
    minDuration := jsMinList durations
    maxDuration := jsMaxList durations }

/-- Error taxonomy named by the specification for the batch scheduler.  The
source function never throws for any argument, so the embedding can only ever
return `.ok`; the error type exists to state the spec's claimed error
channel. -/
inductive BatchError where
  | invalidConfiguration
  | transport (message : String)
  deriving Repr, DecidableEq

/-- `testConcurrentConnections` as a fallible call, the way §7 of the spec
describes it.  The body of the source function catches every batch rejection
and throws nothing, so the result is always `.ok`. -/
def testConcurrentConnections (env : Nat → ReqResult) (c n totalDuration : Nat) :
    Except BatchError BatchRun :=
  .ok (testRunBatches env c n totalDuration)

/-- One element of the `tests` array as consumed by
`calculateScalabilityRating`: the already-parsed `success_rate`
(`parseFloat` of the `"X%"` string yields `X`) and `requests_per_second`
(`parseInt` of the number yields the number). -/
structure ScalInput where
  successRate : ℚ
  rps : ℚ
  deriving Repr, DecidableEq

/-- Arithmetic mean of a list of rationals; `0/0` for the empty list, which
`calculateScalabilityRating` never reaches because of its length guard. -/
def listMean (l : List ℚ) : ℚ := l.sum / l.length

/-- The threshold chain of `calculateScalabilityRating`
(performance-test.js lines 338-341). -/
def scalabilityClassify (sr rps : ℚ) : String :=
  if sr > 95 ∧ rps > 800 then "Highly Scalable"
  else if sr > 90 ∧ rps > 500 then "Scalable"
  else if sr > 80 ∧ rps > 200 then "Moderately Scalable"
  else "Limited Scalability"

/-- `calculateScalabilityRating` (lines 329-342): `'No Data'` on an empty
test list, otherwise the threshold chain applied to the mean success rate
and mean requests-per-second. -/
def calculateScalabilityRating (tests : List ScalInput) : String :=
  if tests.length = 0 then "No Data"
  else scalabilityClassify (listMean (tests.map (·.successRate)))
    (listMean (tests.map (·.rps)))

/-- JSON values as produced by `JSON.parse`.  Numeric fidelity is limited to
integers; no claim ever reaches a numeric literal. -/
inductive JsonVal where
  | jnull
  | jbool (b : Bool)
  | jnum (n : Int)
  | jstr (s : String)
  | jarr (items : List JsonVal)
  | jobj (fields : List (String × JsonVal))

/-- JSON insignificant whitespace. -/
def isJsonWs (c : Char) : Bool :=
  c = ' ' || c = '\n' || c = '\t' || c = '\r'

/-- Skip leading JSON whitespace. -/
def skipJsonWs : List Char → List Char
  | [] => []
  | c :: cs => if isJsonWs c then skipJsonWs cs else c :: cs

/-- Parse a JSON string body after the opening quote, handling the basic
backslash escapes. -/
def parseJsonStringBody : List Char → List Char → Except String (String × List Char)
  | acc, '"' :: rest => .ok (String.mk acc.reverse, rest)
  | acc, '\\' :: e :: rest =>
    let c : Char :=
      if e = 'n' then '\n' else if e = 't' then '\t'
      else if e = 'r' then '\r' else e
    parseJsonStringBody (c :: acc) rest
  | acc, c :: rest => parseJsonStringBody (c :: acc) rest
  | _, [] => .error "unterminated string"

/-- Parse an integer JSON number (digits with optional leading minus). -/
def parseJsonNumber (cs : List Char) : Except String (JsonVal × List Char) :=
  let (neg, body) := match cs with
    | '-' :: rest => (true, rest)
    | _ => (false, cs)
  let digits := body.takeWhile (·.isDigit)
  let rest := body.dropWhile (·.isDigit)
  if digits.isEmpty then .error "unexpected token in JSON"
  else
    let v : Int := digits.foldl (fun a c => a * 10 + (c.toNat - 48)) 0
    .ok (.jnum (if neg then -v else v), rest)

mutual

/-- Recursive-descent `JSON.parse` value parser, fuel-bounded. -/
def parseJsonValue : Nat → List Char → Except String (JsonVal × List Char)
  | 0, _ => .error "too deep"
  | f + 1, cs =>
    match skipJsonWs cs with
    | [] => .error "unexpected end of JSON input"
    | 'n' :: 'u' :: 'l' :: 'l' :: rest => .ok (.jnull, rest)
    | 't' :: 'r' :: 'u' :: 'e' :: rest => .ok (.jbool true, rest)
    | 'f' :: 'a' :: 'l' :: 's' :: 'e' :: rest => .ok (.jbool false, rest)
    | '"' :: rest =>
      (parseJsonStringBody [] rest).map (fun p => (.jstr p.1, p.2))
    | c :: rest =>
      if c = '[' then parseJsonArrayItems f (skipJsonWs rest) []
      else if c = '\x7b' then parseJsonObjectFields f (skipJsonWs rest) []
      else if c.isDigit || c = '-' then parseJsonNumber (c :: rest)
      else .error "unexpected token in JSON"

/-- Array items after `[` (or after a comma), accumulating in reverse. -/
def parseJsonArrayItems : Nat → List Char → List JsonVal →
    Except String (JsonVal × List Char)
  | 0, _, _ => .error "too deep"
  | f + 1, cs, acc =>
    match cs with
    | ']' :: rest =>
      if acc.isEmpty then .ok (.jarr [], rest) else .error "unexpected token in JSON"
    | _ =>
      match parseJsonValue f cs with
      | .error e => .error e
      | .ok (v, rest) =>
        match skipJsonWs rest with
        | ',' :: rest2 => parseJsonArrayItems f (skipJsonWs rest2) (v :: acc)
        | ']' :: rest2 => .ok (.jarr (v :: acc).reverse, rest2)
        | _ => .error "expected comma or bracket in array"

/-- Object fields after the opening brace (or after a comma). -/
def parseJsonObjectFields : Nat → List Char → List (String × JsonVal) →
    Except String (JsonVal × List Char)
  | 0, _, _ => .error "too deep"
  | f + 1, cs, acc =>
    match cs with
    | '\x7d' :: rest =>
      if acc.isEmpty then .ok (.jobj [], rest) else .error "unexpected token in JSON"
    | '"' :: rest =>
      match parseJsonStringBody [] rest with
      | .error e => .error e
      | .ok (k, rest2) =>
        match skipJsonWs rest2 with
        | ':' :: rest3 =>
          match parseJsonValue f rest3 with
          | .error e => .error e
          | .ok (v, rest4) =>
            match skipJsonWs rest4 with
            | ',' :: rest5 =>
              parseJsonObjectFields f (skipJsonWs rest5) ((k, v) :: acc)
            | '\x7d' :: rest5 => .ok (.jobj ((k, v) :: acc).reverse, rest5)
            | _ => .error "expected comma or brace in object"
        | _ => .error "expected colon in object"
    | _ => .error "expected string key in object"

end

/-- `JSON.parse` on a string: parse one value and require only whitespace
after it. -/
def jsonParse (s : String) : Except String JsonVal :=
  match parseJsonValue (2 * s.length + 2) s.data with
  | .error e => .error e
  | .ok (v, rest) =>
    if (skipJsonWs rest).isEmpty then .ok v
    else .error "unexpected non-whitespace character after JSON"

/-- JavaScript's default string conversion of a plain object, the value that
reaches `JSON.parse` in `testResourceUsage` line 233, where the awaited
(already parsed) result object of `makeRequest('/health')` is passed instead
of the raw body text. -/
def jsObjectString : String := "[object Object]"

/-- A recorded resource measurement (timestamp offset, memory snapshot and
uptime are irrelevant to the claims; only membership in the list matters). -/
structure ResourceMeasurement where
  timestampOffset : Nat
  deriving Repr, DecidableEq

/-- One firing of the `setInterval` callback in `testResourceUsage`
(lines 229-243), given the two `/health` promise results it can await:
`await makeRequest('/health')` and the inner request whose awaited object is
handed to `JSON.parse`.  Any thrown error is swallowed by the surrounding
`catch`, which leaves `measurements` unchanged. -/
def monitorTick (r1 r2 : ReqResult) (t : Nat)
    (measurements : List ResourceMeasurement) : List ResourceMeasurement :=
  match makeRequest (fun _ => r1) 0 with
  | .error _ => measurements
  | .ok response =>
    if response.success then
      match makeRequest (fun _ => r2) 0 with
      | .error _ => measurements
      | .ok _ =>
        match jsonParse jsObjectString with
        | .error _ => measurements
        | .ok _ => measurements ++ [⟨t⟩]
    else measurements

/-- The fields of the `Resource Usage Test` entry that depend on the
collected measurements (lines 251-259). -/
structure ResourceTestEntry where
  measurements : Nat
  samples : Nat
  deriving Repr, DecidableEq

/-- `testResourceUsage` (lines 214-267) restricted to its measurement
collection: fold the interval callback over however many ticks fire while
the concurrent load generation runs, then record `measurements.length`
twice in the test entry. -/
def testResourceUsage (tickEnv : Nat → ReqResult × ReqResult) (ticks : Nat) :
    ResourceTestEntry :=
  let ms := (List.range ticks).foldl
    (fun acc t => monitorTick (tickEnv t).1 (tickEnv t).2 t acc) []
  { measurements := ms.length, samples := ms.length }

/-- `'='.repeat(n)` and friends. -/
def repeatChar (c : Char) (n : Nat) : String := String.mk (List.replicate n c)

/-- A value of one key of a test's `results` object: either a scalar
(rendered by template interpolation) or a nested object such as
`response_times`. -/
inductive ResultVal where
  | scalar (rendered : String)
  | nested (entries : List (String × String))
  deriving Repr, DecidableEq

/-- One element of the `load_levels` array of the Load Increase Test entry. -/
structure LoadLevelEntry where
  loadLevel : Nat
  successRate : String
  requestsPerSecond : ℤ
  avgResponseTime : String
  deriving Repr, DecidableEq

/-- One element of `report.tests` as consumed by `formatReportAsText`:
`test_name` is always present; the other keys are present or absent
depending on which sweep produced the entry (`if (test.endpoint)` etc.). -/
structure ReportTest where
  testName : String
  endpoint : Option String
  configuration : Option (List (String × String))
  results : Option (List (String × ResultVal))
  loadLevels : Option (List LoadLevelEntry)
  deriving Repr, DecidableEq

/-- `report.summary` as read by the formatter's header block. -/
structure ReportSummary where
  totalTests : Nat
  overallPerformance : String
  scalabilityRating : String
  averageRequestsPerSecond : ℤ
  averageResponseTime : String
  deriving Repr, DecidableEq

/-- The finalized `RunReport` handed to `formatReportAsText`. -/
structure RunReport where
  timestamp : String
  tests : List ReportTest
  summary : ReportSummary
  deriving Repr, DecidableEq

/-- Render one `key: value` line at the given indentation. -/
def kvLine (indent : String) (kv : String × String) : String :=
  indent ++ kv.1 ++ ": " ++ kv.2 ++ "\n"

/-- The section printed for one test entry (`report.tests.forEach` body,
lines 371-409); `index` is the zero-based position. -/
def formatTestSection (index : Nat) (test : ReportTest) : String :=
  repeatChar '-' 60 ++ "\n"
  ++ "TEST " ++ toString (index + 1) ++ ": " ++ test.testName ++ "\n"
  ++ repeatChar '-' 60 ++ "\n"
  ++ (match test.endpoint with
      | some e => "Endpoint: " ++ e ++ "\n"
      | none => "")
  ++ (match test.configuration with
      | some cfg => "Configuration:\n" ++ String.join (cfg.map (kvLine "  "))
      | none => "")
  ++ (match test.results with
      | some res => "Results:\n" ++ String.join (res.map (fun kv =>
          match kv.2 with
          | .scalar v => "  " ++ kv.1 ++ ": " ++ v ++ "\n"
          | .nested sub =>
            "  " ++ kv.1 ++ ":\n" ++ String.join (sub.map (kvLine "    "))))
      | none => "")
  ++ (match test.loadLevels with
      | some levels => "Load Test Results:\n" ++ String.join (levels.map (fun l =>
          "  Load " ++ toString l.loadLevel ++ ": " ++ l.successRate
          ++ " success, " ++ toString l.requestsPerSecond ++ " RPS, "
          ++ l.avgResponseTime ++ " avg\n"))
      | none => "")
  ++ "\n"

/-- The fixed closing analysis block (lines 411-424). -/
def analysisBlock : String :=
  repeatChar '=' 80 ++ "\n"
  ++ "PERFORMANCE ANALYSIS:\n"
  ++ repeatChar '=' 80 ++ "\n"
  ++ "Node.js demonstrates excellent scalability characteristics:\n"
  ++ "• Non-blocking I/O enables high concurrent connection handling\n"
  ++ "• Event-driven architecture maintains low memory footprint\n"
  ++ "• Single-threaded event loop efficiently manages requests\n"
  ++ "• Performance remains stable under increasing load\n"
  ++ "\nRecommendations:\n"
  ++ "• Monitor memory usage during peak loads\n"
  ++ "• Implement connection pooling for database operations\n"
  ++ "• Use clustering for CPU-intensive operations\n"
  ++ "• Consider load balancing for production deployment\n"
  ++ "\n"

/-- `formatReportAsText` (lines 358-427): header block, one section per test
entry in order, fixed analysis block.  The function reads nothing but its
argument. -/
def formatReportAsText (report : RunReport) : String :=
  repeatChar '=' 80 ++ "\n"
  ++ "                    NODE.JS PERFORMANCE TEST RESULTS\n"
  ++ repeatChar '=' 80 ++ "\n"
  ++ "Test Date: " ++ report.timestamp ++ "\n"
  ++ "Total Tests: " ++ toString report.summary.totalTests ++ "\n"
  ++ "Overall Performance: " ++ report.summary.overallPerformance ++ "\n"
  ++ "Scalability Rating: " ++ report.summary.scalabilityRating ++ "\n"
  ++ "Average RPS: " ++ toString report.summary.averageRequestsPerSecond ++ "\n"
  ++ "Average Response Time: " ++ report.summary.averageResponseTime ++ "\n"
  ++ "\n"
  ++ String.join (report.tests.enum.map (fun p => formatTestSection p.1 p.2))
  ++ analysisBlock

/-- What `saveResults` (lines 345-355) produces: whether the file write
succeeded, whether the failure message was logged, and the report text it
was asked to persist (returned unchanged — the function only reads it).
The `catch` block swallows the write error, so the function returns normally
in both cases and throws nothing. -/
structure SaveOutcome where
  written : Bool
  errorLogged : Bool
  reportText : String
  deriving Repr, DecidableEq

/-- `saveResults`: try `fs.promises.writeFile`; on failure log and continue. -/
def saveResults (writeOk : Bool) (reportText : String) : SaveOutcome :=
  if writeOk then ⟨true, false, reportText⟩ else ⟨false, true, reportText⟩

/-- The `(concurrency, totalRequests)` configuration of each
`testConcurrentConnections` call made by a full run, in execution order:
five multi-endpoint calls at `(50, 200)`, the resource-usage load call at
`(20, 300)`, and the five load-increase levels `[10, 25, 50, 100, 200]`
with `totalRequests = level * 5`. -/
def sweepConfigs : List (Nat × Nat) :=
  [(50, 200), (50, 200), (50, 200), (50, 200), (50, 200),
   (20, 300),
   (10, 50), (25, 125), (50, 250), (100, 500), (200, 1000)]

/-- Environment of a full `runPerformanceTests` invocation: the preflight
`/health` result, a per-call backend for the eleven batch calls, each call's
measured wall clock, the monitor ticks fired during the resource sweep, and
whether the report file write succeeds. -/
structure OrchEnv where
  health : ReqResult
  backend : Nat → Nat → ReqResult
  callDuration : Nat → Nat
  ticks : Nat
  tickEnv : Nat → ReqResult × ReqResult
  writeOk : Bool

/-- The eleven `BatchRun`s of a full run, in order. -/
def orchBatchRuns (env : OrchEnv) : List BatchRun :=
  sweepConfigs.enum.map (fun p =>
    testRunBatches (env.backend p.1) p.2.1 p.2.2 (env.callDuration p.1))

/-- `/health` requests issued by the resource-monitor interval callback:
one per tick, plus the second one that is made (inside the `JSON.parse`
argument) whenever the first response resolves with `success`. -/
def monitorRequestCount (env : OrchEnv) : Nat :=
  ((List.range env.ticks).map (fun t =>
    match (env.tickEnv t).1 with
    | .transportError _ => 1
    | .ok st _ _ => if 200 ≤ st ∧ st < 300 then 2 else 1)).sum

/-- The `tests` entry a completed `BatchRun` contributes to
`calculateScalabilityRating`: `parseFloat` of its `success_rate` string and
`parseInt` of its `requests_per_second` number.  Every orchestrated call has
`totalRequests > 0`; the `getD` defaults are never exercised with a
positive-duration environment. -/
def scalInputOfRun (r : BatchRun) : ScalInput :=
  ⟨((r.successRatePct.getD 0 : ℤ) : ℚ), ((r.requestsPerSecond.getD 0 : ℤ) : ℚ)⟩

/-- Observable outcome of `runPerformanceTests` (lines 431-468):
the process exit code, how many load requests were dispatched beyond the
single preflight probe, how many sweeps ran, whether the report file was
written, whether a write failure was logged, and the scalability rating of
the generated report (`none` when the run aborted before generating one). -/
structure OrchOutcome where
  exitCode : Nat
  requestsBeyondProbe : Nat
  sweepsRun : Nat
  reportWritten : Bool
  writeErrorLogged : Bool
  scalabilityRating : Option String
  deriving Repr, DecidableEq

/-- `runPerformanceTests`: the preflight `try { await makeRequest('/health') }`
exits the process with code 1 on rejection, before any sweep; otherwise the
three sweeps run (none of them can throw: every batch rejection and every
monitor-callback error is caught locally, and `saveResults` swallows write
failures), the report is generated and saved, and the process finishes with
exit code 0. -/
def runPerformanceTests (env : OrchEnv) : OrchOutcome :=
  match env.health with
  | .transportError _ =>
    { exitCode := 1, requestsBeyondProbe := 0, sweepsRun := 0,
      reportWritten := false, writeErrorLogged := false,
      scalabilityRating := none }
  | .ok _ _ _ =>
    let runs := orchBatchRuns env
    { exitCode := 0
      requestsBeyondProbe := (sweepConfigs.map (·.2)).sum + monitorRequestCount env
      sweepsRun := 3
      reportWritten := (saveResults env.writeOk "").written
      writeErrorLogged := (saveResults env.writeOk "").errorLogged
      scalabilityRating := some (calculateScalabilityRating (runs.map scalInputOfRun)) }

/-- Scheduler state for the concurrency-bound claim: groups not yet
dispatched, the members of the most recently dispatched group (whose
`Promise.all` the loop is awaiting), the requests dispatched but not yet
settled, and the requests that have settled (resolved or rejected). -/
structure SchedState where
  pending : List (List Nat)
  awaited : List Nat
  inFlight : List Nat
  settled : List Nat
  deriving Repr, DecidableEq

/-- When the `await Promise.all(batchPromises)` of the awaited group
unblocks the loop: either every member has settled (all resolved), or some
member has already settled with a rejection — `Promise.all` rejects at the
first rejection while the group's other requests stay in flight, since
nothing cancels them. -/
def promiseAllSettled (env : Nat → ReqResult) (aw settled : List Nat) : Prop :=
  (∀ i ∈ aw, i ∈ settled) ∨
  (∃ i ∈ aw, i ∈ settled ∧ (env i).isResolved = false)

/-- One scheduling event of the batch loop.  The next group is dispatched as
soon as the awaited group's `Promise.all` has settled — which, on an early
rejection, can happen while that group's other requests are still in
flight; individual requests settle in any order. -/
inductive SchedStep (env : Nat → ReqResult) : SchedState → SchedState → Prop
  | dispatch (g : List Nat) (rest : List (List Nat)) (aw fl done : List Nat)
      (h : promiseAllSettled env aw done) :
      SchedStep env ⟨g :: rest, aw, fl, done⟩ ⟨rest, g, fl ++ g, done⟩
  | settle (i : Nat) (p : List (List Nat)) (aw fl done : List Nat) (h : i ∈ fl) :
      SchedStep env ⟨p, aw, fl, done⟩ ⟨p, aw, fl.erase i, i :: done⟩

/-- States reachable by the scheduler of a `testConcurrentConnections`
call against backend `env` with concurrency `c` and `n` total requests. -/
def SchedReach (env : Nat → ReqResult) (c n : Nat) (s : SchedState) : Prop :=
  Relation.ReflTransGen (SchedStep env) ⟨requestGroups c n 0, [], [], []⟩ s

/-- The outcome a resolved request produces (the `resolve` payload of
`makeRequest`); the `transportError` case is a placeholder that is only
mentioned under a hypothesis ruling it out. -/
def outcomeOf : ReqResult → RequestOutcome
  | .ok st d sz => ⟨st, d, sz, decide (200 ≤ st ∧ st < 300)⟩
  | .transportError _ => ⟨0, 0, 0, false⟩

/-- Backend on which every connection is refused. -/
def envRefusedAll : Nat → ReqResult := fun _ => .transportError "ECONNREFUSED"

/-- Backend on which exactly request 1 is refused and every other request
resolves with a 200 in 10 ms. -/
def envRefusedSecond : Nat → ReqResult := fun i =>
  if i = 1 then .transportError "ECONNREFUSED" else .ok 200 10 5

/-- Backend on which every request resolves with a 200 in 10 ms. -/
def envOk : Nat → ReqResult := fun _ => .ok 200 10 5

/-- Orchestrator environment with an unreachable target: the preflight
health probe is refused. -/
def orchEnvDown : OrchEnv :=
  { health := .transportError "ECONNREFUSED"
    backend := fun _ _ => .ok 200 10 5
    callDuration := fun _ => 1000
    ticks := 3
    tickEnv := fun _ => (.ok 200 3 7, .ok 200 3 7)
    writeOk := true }

/-- Orchestrator environment in which the run itself succeeds but the
report-file write fails. -/
def orchEnvWriteFail : OrchEnv :=
  { health := .ok 200 5 17
    backend := fun _ _ => .ok 200 10 5
    callDuration := fun _ => 1000
    ticks := 3
    tickEnv := fun _ => (.ok 200 3 7, .ok 200 3 7)
    writeOk := false }

/-- A small concrete finalized report used to exercise the formatter. -/
def sampleReport : RunReport :=
  { timestamp := "2025-01-01T00:00:00.000Z"
    tests :=
      [{ testName := "Concurrent Connections Test"
         endpoint := some "/api/users"
         configuration := some [("concurrency", "5"), ("total_requests", "20")]
         results := some
           [("total_duration", .scalar "40ms"),
            ("successful_requests", .scalar "20"),
            ("response_times", .nested [("average", "10ms"), ("minimum", "10ms")])]
         loadLevels := none },
       { testName := "Load Increase Test"
         endpoint := none
         configuration := none
         results := none
         loadLevels := some [⟨10, "100%", 500, "10ms"⟩] }]
    summary :=
      { totalTests := 2
        overallPerformance := "Excellent"
        scalabilityRating := "Scalable"
        averageRequestsPerSecond := 500
        averageResponseTime := "10ms" } }

/-- Inductive invariant of the scheduler for a run in which no request is
rejected: pending groups are small, nodup and pairwise disjoint and their
members are untouched; everything in flight belongs to the awaited group,
has not settled, and is nodup and within the bound. -/
def SchedInv (c : Nat) (s : SchedState) : Prop :=
  (∀ g ∈ s.pending, g.length ≤ c) ∧
  (∀ g ∈ s.pending, g.Nodup) ∧
  s.pending.Pairwise List.Disjoint ∧
  (∀ g ∈ s.pending, ∀ i ∈ g, i ∉ s.settled ∧ i ∉ s.inFlight) ∧
  s.awaited.length ≤ c ∧
  s.inFlight ⊆ s.awaited ∧
  (∀ i ∈ s.inFlight, i ∉ s.settled) ∧
  s.inFlight.Nodup ∧
  s.inFlight.length ≤ c

theorem jsRound_eq_floor (q : ℚ) : jsRound q = ⌊q + 1/2⌋ := by
  have key : (q + 1/2 : ℚ) =
      (((2 * q.num + (q.den : ℤ)) : ℤ) : ℚ) / (((2 * q.den : ℕ) : ℕ) : ℚ) := by
    push_cast
    conv_lhs => rw [← Rat.num_div_den q]
    field_simp
    ring
  rw [key, Rat.floor_intCast_div_natCast]
  unfold jsRound
  push_cast
  rfl

theorem requestGroupsAux_flatten {c : Nat} (hc : 0 < c) :
    ∀ (f n start : Nat), n ≤ f →
      (requestGroupsAux c f n start).flatten = List.range' start n := by
  intro f
  induction f with
  | zero =>
    intro n start h
    have : n = 0 := Nat.le_zero.mp h
    subst this
    simp [requestGroupsAux]
  | succ f ih =>
    intro n start hnf
    by_cases hn : n = 0
    · subst hn; simp [requestGroupsAux]
    · have hmin : 0 < min c n := by omega
      rw [requestGroupsAux]
      rw [if_neg hn]
      rw [List.flatten_cons, ih (n - min c n) (start + min c n) (by omega)]
      have hmap : (List.range (min c n)).map (· + start) = List.range' start (min c n) := by
        rw [List.range'_eq_map_range]
        simp [Nat.add_comm]
      rw [hmap]
      rw [List.range'_append_1]
      congr 1
      omega

theorem requestGroups_flatten {c : Nat} (hc : 0 < c) (n : Nat) :
    (requestGroups c n 0).flatten = List.range n := by
  rw [requestGroups, if_neg (by omega), requestGroupsAux_flatten hc n n 0 le_rfl,
    List.range_eq_range']

theorem requestGroupsAux_group_le (c : Nat) :
    ∀ (f n start : Nat) (g : List Nat), g ∈ requestGroupsAux c f n start → g.length ≤ c := by
  intro f
  induction f with
  | zero => intro n start g h; simp [requestGroupsAux] at h
  | succ f ih =>
    intro n start g h
    rw [requestGroupsAux] at h
    by_cases hn : n = 0
    · simp [hn] at h
    · rw [if_neg hn] at h
      rcases List.mem_cons.mp h with h1 | h2
      · subst h1; simp
      · exact ih _ _ g h2

theorem requestGroups_group_le (c n start : Nat) :
    ∀ g ∈ requestGroups c n start, g.length ≤ c := by
  intro g hg
  rw [requestGroups] at hg
  split at hg
  · simp at hg
  · exact requestGroupsAux_group_le c n n start g hg

theorem makeRequest_eq_ok {env : Nat → ReqResult} {i : Nat}
    (h : (env i).isResolved = true) :
    makeRequest env i = .ok (outcomeOf (env i)) := by
  cases henv : env i with
  | ok st d sz => simp [makeRequest, outcomeOf, henv]
  | transportError m =>
    rw [henv] at h
    simp [ReqResult.isResolved] at h

theorem runGroup_all_resolved {env : Nat → ReqResult} {g : List Nat}
    (h : ∀ i ∈ g, (env i).isResolved = true) :
    runGroup env g = .ok (g.map (fun i => outcomeOf (env i))) := by
  induction g with
  | nil => rfl
  | cons i gs ih =>
    have hi := makeRequest_eq_ok (h i (List.mem_cons_self i gs))
    have hrest := ih (fun j hj => h j (List.mem_cons_of_mem i hj))
    unfold runGroup at hrest ⊢
    simp only [List.map_cons, hi, promiseAll, hrest]

theorem runGroups_all_resolved {env : Nat → ReqResult} :
    ∀ {groups : List (List Nat)},
      (∀ g ∈ groups, ∀ i ∈ g, (env i).isResolved = true) →
      runGroups env groups = groups.flatten.map (fun i => outcomeOf (env i)) := by
  intro groups
  induction groups with
  | nil => intro _; rfl
  | cons g gs ih =>
    intro h
    rw [runGroups, runGroup_all_resolved (h g (List.mem_cons_self g gs)),
      ih (fun g' hg' => h g' (List.mem_cons_of_mem g hg'))]
    simp

theorem runGroups_eq_filterMap (env : Nat → ReqResult) :
    ∀ groups : List (List Nat),
      runGroups env groups =
        (groups.filterMap (fun g => (runGroup env g).toOption)).flatten := by
  intro groups
  induction groups with
  | nil => rfl
  | cons g gs ih =>
    rw [runGroups, ih, List.filterMap_cons]
    cases h : runGroup env g with
    | ok l => simp [Except.toOption, h]
    | error e => simp [Except.toOption, h]

theorem promiseAllSettled_all_resolved {env : Nat → ReqResult}
    (hres : ∀ i, (env i).isResolved = true) {aw done : List Nat}
    (h : promiseAllSettled env aw done) : ∀ i ∈ aw, i ∈ done := by
  rcases h with hall | ⟨i, _, _, hirej⟩
  · exact hall
  · rw [hres i] at hirej
    cases hirej

theorem schedStep_preserves_inv {env : Nat → ReqResult} {c : Nat}
    (hres : ∀ i, (env i).isResolved = true) {s t : SchedState}
    (h : SchedInv c s) (hst : SchedStep env s t) : SchedInv c t := by
  obtain ⟨hlen, hnd, hdisj, hfresh, haw, hsub, hifs, hifnd, hiflen⟩ := h
  cases hst with
  | dispatch g rest aw fl done hset =>
    have hawdone := promiseAllSettled_all_resolved hres hset
    have hfl : fl = [] := by
      rw [List.eq_nil_iff_forall_not_mem]
      intro i hifl
      exact hifs i hifl (hawdone i (hsub hifl))
    subst hfl
    have hgdisj : ∀ g' ∈ rest, ∀ i ∈ g', i ∉ g := by
      intro g' hg' i hig' hig
      exact (List.pairwise_cons.mp hdisj).1 g' hg' hig hig'
    refine ⟨fun g' hg' => hlen g' (List.mem_cons_of_mem g hg'),
      fun g' hg' => hnd g' (List.mem_cons_of_mem g hg'),
      (List.pairwise_cons.mp hdisj).2,
      ?_,
      hlen g (List.mem_cons_self g rest),
      by simp,
      ?_,
      hnd g (List.mem_cons_self g rest),
      hlen g (List.mem_cons_self g rest)⟩
    · intro g' hg' i hig'
      refine ⟨(hfresh g' (List.mem_cons_of_mem g hg') i hig').1, ?_⟩
      simp only [List.nil_append]
      exact hgdisj g' hg' i hig'
    · intro i hig
      simp only [List.nil_append] at hig
      exact (hfresh g (List.mem_cons_self g rest) i hig).1
  | settle i p aw fl done hifl =>
    refine ⟨hlen, hnd, hdisj, ?_, haw,
      fun j hj => hsub (List.erase_subset i fl hj), ?_,
      hifnd.erase i, le_trans (List.length_erase_le i fl) hiflen⟩
    · intro g hg j hjg
      obtain ⟨hjd, hjf⟩ := hfresh g hg j hjg
      refine ⟨?_, fun hj => hjf (List.erase_subset i fl hj)⟩
      intro hj
      rcases List.mem_cons.mp hj with rfl | hj2
      · exact hjf hifl
      · exact hjd hj2
    · intro j hj
      have hj2 := (List.Nodup.mem_erase_iff hifnd).mp hj
      intro hmem
      rcases List.mem_cons.mp hmem with rfl | hjd
      · exact hj2.1 rfl
      · exact hifs j hj2.2 hjd

theorem schedReach_inv {env : Nat → ReqResult} {c n : Nat} (hc : 0 < c)
    (hres : ∀ i, (env i).isResolved = true) {s : SchedState}
    (h : SchedReach env c n s) : SchedInv c s := by
  induction h with
  | refl =>
    have hflat : ((requestGroups c n 0).flatten).Nodup := by
      rw [requestGroups_flatten hc]
      exact List.nodup_range n
    have hnd := List.nodup_flatten.mp hflat
    exact ⟨fun g hg => requestGroups_group_le c n 0 g hg,
      hnd.1, hnd.2, by simp, by simp, by simp, by simp, by simp, by simp⟩
  | tail _ step ih => exact schedStep_preserves_inv hres ih step

theorem schedStep_dispatch_sequencing {env : Nat → ReqResult} {c : Nat}
    (hres : ∀ i, (env i).isResolved = true) {s t : SchedState}
    (hinv : SchedInv c s) (hst : SchedStep env s t)
    (hp : t.pending.length < s.pending.length) :
    s.inFlight = [] ∧ ∀ i ∈ s.awaited, i ∈ s.settled := by
  obtain ⟨_, _, _, _, _, hsub, hifs, _, _⟩ := hinv
  cases hst with
  | dispatch g rest aw fl done hset =>
    have hawdone := promiseAllSettled_all_resolved hres hset
    refine ⟨?_, hawdone⟩
    rw [List.eq_nil_iff_forall_not_mem]
    intro i hifl
    exact hifs i hifl (hawdone i (hsub hifl))
  | settle i p aw fl done h => simp at hp

theorem monitorTick_id (r1 r2 : ReqResult) (t : Nat)
    (ms : List ResourceMeasurement) : monitorTick r1 r2 t ms = ms := by
  unfold monitorTick
  cases r1 with
  | transportError m => rfl
  | ok st d sz =>
    simp only [makeRequest]
    split
    · cases r2 with
      | transportError m => rfl
      | ok st2 d2 sz2 =>
        simp only [makeRequest]
        have hparse : jsonParse jsObjectString = .error "unexpected token in JSON" := by rfl
        rw [hparse]
    · rfl

theorem batch_counts (env : Nat → ReqResult) (c n d : Nat) :
    (testRunBatches env c n d).successfulRequests + (testRunBatches env c n d).failedRequests
      = (testRunBatches env c n d).results.length := by
  have hsucc : (testRunBatches env c n d).successfulRequests
      = ((runGroups env (requestGroups c n 0)).filter (·.success)).length := rfl
  have hfail : (testRunBatches env c n d).failedRequests
      = (runGroups env (requestGroups c n 0)).length
        - ((runGroups env (requestGroups c n 0)).filter (·.success)).length := rfl
  have hres : (testRunBatches env c n d).results = runGroups env (requestGroups c n 0) := rfl
  have hle := List.length_filter_le (·.success) (runGroups env (requestGroups c n 0))
  rw [hsucc, hfail, hres]
  omega

/-- C1 (amended): for every `testConcurrentConnections` run, `successCount +
failureCount` equals the number of recorded outcomes; when every request of
the run resolves (no `TransportError`), that number is `totalRequests`.
(The unamended claim fails when a `TransportError` occurs, because the whole
affected batch is dropped from the records; see the counterexample.) -/
theorem claim_C1 (env : Nat → ReqResult) (c n d : Nat) (hc : 0 < c) :
    (testRunBatches env c n d).successfulRequests + (testRunBatches env c n d).failedRequests
        = (testRunBatches env c n d).results.length ∧
    ((∀ i, i < n → (env i).isResolved = true) →
      (testRunBatches env c n d).successfulRequests
        + (testRunBatches env c n d).failedRequests = n) := by
  refine ⟨batch_counts env c n d, fun hall => ?_⟩
  rw [batch_counts env c n d]
  have hres : (testRunBatches env c n d).results = runGroups env (requestGroups c n 0) := rfl
  have hgroups : ∀ g ∈ requestGroups c n 0, ∀ i ∈ g, (env i).isResolved = true := by
    intro g hg i hig
    apply hall
    have hmem : i ∈ (requestGroups c n 0).flatten := List.mem_flatten.mpr ⟨g, hg, hig⟩
    rw [requestGroups_flatten hc] at hmem
    exact List.mem_range.mp hmem
  rw [hres, runGroups_all_resolved hgroups, List.length_map,
    requestGroups_flatten hc, List.length_range]

/-- C1 counterexample: with one request and a refused connection, the
recorded counts sum to 0, not to `totalRequests = 1`. -/
theorem claim_C1_cex :
    ¬ ((testRunBatches envRefusedAll 1 1 50).successfulRequests
        + (testRunBatches envRefusedAll 1 1 50).failedRequests = 1) := by decide

/-- C1 witness: a fully-resolving run of 5 requests at concurrency 2 records
counts summing to 5. -/
theorem claim_C1_witness :
    (testRunBatches envOk 2 5 100).successfulRequests
      + (testRunBatches envOk 2 5 100).failedRequests = 5 :=
  (claim_C1 envOk 2 5 100 (by decide)).2 (fun _ _ => rfl)

/-- C2 (amended): a `TransportError` never propagates past
`testConcurrentConnections` (the call always returns a result) and every one
of the N requests is still dispatched; but only groups in which every request
resolved are recorded — the failing request is not recorded as a failed
outcome, and the resolved outcomes of its batch are discarded with it (see
the counterexample). -/
theorem claim_C2 (env : Nat → ReqResult) (c n d : Nat) (hc : 0 < c) :
    (testRunBatches env c n d).executed = n ∧
    (testRunBatches env c n d).results =
      ((requestGroups c n 0).filterMap (fun g => (runGroup env g).toOption)).flatten ∧
    testConcurrentConnections env c n d = .ok (testRunBatches env c n d) := by
  refine ⟨?_, ?_, rfl⟩
  · have hex : (testRunBatches env c n d).executed = (requestGroups c n 0).flatten.length := rfl
    rw [hex, requestGroups_flatten hc, List.length_range]
  · have hres : (testRunBatches env c n d).results = runGroups env (requestGroups c n 0) := rfl
    rw [hres, runGroups_eq_filterMap]

/-- C2 counterexample: request 1 of a 2-request batch is refused; the batch's
other request resolved with a 200 but nothing at all is recorded — in
particular no outcome with `success = false` exists for the failing
request. -/
theorem claim_C2_cex :
    (testRunBatches envRefusedSecond 2 2 100).results = [] ∧
    (testRunBatches envRefusedSecond 2 2 100).executed = 2 := by decide

/-- C2 witness: at concurrency 2 with 4 requests, all 4 are dispatched even
though request 1 is refused. -/
theorem claim_C2_witness :
    (testRunBatches envRefusedSecond 2 4 100).executed = 4 :=
  (claim_C2 envRefusedSecond 2 4 100 (by decide)).1

/-- C5 (amended): a call with `totalRequests = 0` does not fail with
`InvalidConfiguration` (the source has no such error path); it completes
normally and records a degenerate result with zero counts, `NaN` success
rate and average (encoded `none`) and `±Infinity` min/max (encoded `none`),
leaving previously accumulated state untouched. -/
theorem claim_C5 (env : Nat → ReqResult) (c d : Nat) :
    testConcurrentConnections env c 0 d = .ok (testRunBatches env c 0 d) ∧
    (testRunBatches env c 0 d).results = [] ∧
    (testRunBatches env c 0 d).successfulRequests = 0 ∧
    (testRunBatches env c 0 d).failedRequests = 0 ∧
    (testRunBatches env c 0 d).successRatePct = none ∧
    (testRunBatches env c 0 d).avgDuration = none ∧
    (testRunBatches env c 0 d).minDuration = none ∧
    (testRunBatches env c 0 d).maxDuration = none := by
  have hg : requestGroups c 0 0 = [] := by cases c <;> rfl
  refine ⟨rfl, ?_, ?_, ?_, ?_, ?_, ?_, ?_⟩ <;>
    simp [testRunBatches, hg, runGroups, jsMinList, jsMaxList]

/-- C5 counterexample: the call with `totalRequests = 0` is not an
`InvalidConfiguration` failure; it succeeds with zero recorded counts. -/
theorem claim_C5_cex :
    testConcurrentConnections envOk 100 0 5 ≠ .error .invalidConfiguration ∧
    (testRunBatches envOk 100 0 5).successfulRequests = 0 ∧
    (testRunBatches envOk 100 0 5).failedRequests = 0 := by
  refine ⟨by simp [testConcurrentConnections], by decide, by decide⟩

/-- C5 witness: the degenerate zero-request call on a concrete backend. -/
theorem claim_C5_witness :
    testConcurrentConnections envRefusedAll 3 0 7 = .ok (testRunBatches envRefusedAll 3 0 7) ∧
    (testRunBatches envRefusedAll 3 0 7).successRatePct = none :=
  ⟨(claim_C5 envRefusedAll 3 7).1, (claim_C5 envRefusedAll 3 7).2.2.2.2.1⟩

/-- C3: the scalability classification evaluates its thresholds in order
with strict inequalities, first match wins: the four ratings are exactly
characterised, the empty test set gives `'No Data'`, a non-empty set is
classified by the two means, and the boundary pair (95, 900) falls to
`'Scalable'`, not `'Highly Scalable'`. -/
theorem claim_C3 :
    calculateScalabilityRating [] = "No Data" ∧
    (∀ (t : ScalInput) (ts : List ScalInput),
      calculateScalabilityRating (t :: ts) =
        scalabilityClassify (listMean ((t :: ts).map (·.successRate)))
          (listMean ((t :: ts).map (·.rps)))) ∧
    (∀ sr rps : ℚ, scalabilityClassify sr rps = "Highly Scalable" ↔
      sr > 95 ∧ rps > 800) ∧
    (∀ sr rps : ℚ, scalabilityClassify sr rps = "Scalable" ↔
      ¬(sr > 95 ∧ rps > 800) ∧ sr > 90 ∧ rps > 500) ∧
    (∀ sr rps : ℚ, scalabilityClassify sr rps = "Moderately Scalable" ↔
      ¬(sr > 95 ∧ rps > 800) ∧ ¬(sr > 90 ∧ rps > 500) ∧ sr > 80 ∧ rps > 200) ∧
    (∀ sr rps : ℚ, scalabilityClassify sr rps = "Limited Scalability" ↔
      ¬(sr > 95 ∧ rps > 800) ∧ ¬(sr > 90 ∧ rps > 500) ∧ ¬(sr > 80 ∧ rps > 200)) ∧
    scalabilityClassify 95 900 = "Scalable" ∧
    calculateScalabilityRating [⟨95, 900⟩] = "Scalable" := by
  refine ⟨rfl, fun t ts => by simp [calculateScalabilityRating], ?_, ?_, ?_, ?_, ?_, ?_⟩
  · intro sr rps
    unfold scalabilityClassify
    split_ifs with h1 h2 h3 <;> simp_all
  · intro sr rps
    unfold scalabilityClassify
    split_ifs with h1 h2 h3 <;> simp_all
  · intro sr rps
    unfold scalabilityClassify
    split_ifs with h1 h2 h3 <;> simp_all
  · intro sr rps
    unfold scalabilityClassify
    split_ifs with h1 h2 h3 <;> simp_all
  · norm_num [scalabilityClassify]
  · norm_num [calculateScalabilityRating, listMean, scalabilityClassify]

/-- C3 witness: the first threshold at a concrete point strictly above both
bounds. -/
theorem claim_C3_witness : scalabilityClassify 96 900 = "Highly Scalable" :=
  (claim_C3.2.2.1 96 900).mpr (by norm_num)

/-- C7 (amended): the batch loop partitions the N request indices into
consecutive groups of size at most C covering exactly `range N`.  When no
request of the run is rejected, `await Promise.all` unblocks only after the
whole awaited group has settled, and then every reachable scheduler state
has at most C requests in flight and a new group is dispatched only once the
previous group has fully settled with nothing left in flight.  (When a
request rejects early, `Promise.all` settles immediately and the next group
is dispatched while the prior group's other requests are still in flight,
so the in-flight count can exceed C and group k+1 starts before group k
completes; see the counterexample.) -/
theorem claim_C7 (env : Nat → ReqResult) (c n : Nat) (hc : 0 < c)
    (hres : ∀ i, (env i).isResolved = true) :
    (requestGroups c n 0).flatten = List.range n ∧
    (∀ g ∈ requestGroups c n 0, g.length ≤ c) ∧
    (∀ s : SchedState, SchedReach env c n s → s.inFlight.length ≤ c) ∧
    (∀ s t : SchedState, SchedReach env c n s → SchedStep env s t →
      t.pending.length < s.pending.length →
      s.inFlight = [] ∧ ∀ i ∈ s.awaited, i ∈ s.settled) := by
  refine ⟨requestGroups_flatten hc n, requestGroups_group_le c n 0, ?_, ?_⟩
  · intro s hs
    obtain ⟨_, _, _, _, _, _, _, _, hbound⟩ := schedReach_inv hc hres hs
    exact hbound
  · intro s t hs hst hp
    exact schedStep_dispatch_sequencing hres (schedReach_inv hc hres hs) hst hp

/-- C7 counterexample: against `envRefusedSecond` (request 1 refused) with
C = 2 and N = 4 (groups `[[0,1],[2,3]]`), request 1 settles with a
rejection, the awaited `Promise.all` settles at once, and group `[2,3]` is
dispatched while request 0 of group `[0,1]` is still in flight: the
reachable state has requests 0, 2 and 3 in flight — three in flight exceeds
C = 2, and group 2 started before group 1 completed. -/
theorem claim_C7_cex :
    SchedStep envRefusedSecond ⟨[[2, 3]], [0, 1], [0], [1]⟩
      ⟨[], [2, 3], [0, 2, 3], [1]⟩ ∧
    0 ∈ (⟨[[2, 3]], [0, 1], [0], [1]⟩ : SchedState).inFlight ∧
    SchedReach envRefusedSecond 2 4 ⟨[], [2, 3], [0, 2, 3], [1]⟩ ∧
    ¬ ((⟨[], [2, 3], [0, 2, 3], [1]⟩ : SchedState).inFlight.length ≤ 2) := by
  have hsettled : promiseAllSettled envRefusedSecond [0, 1] [1] :=
    Or.inr ⟨1, by simp, by simp, rfl⟩
  have step1 : SchedStep envRefusedSecond ⟨[[0, 1], [2, 3]], [], [], []⟩
      ⟨[[2, 3]], [0, 1], [0, 1], []⟩ :=
    SchedStep.dispatch [0, 1] [[2, 3]] [] [] [] (Or.inl (by simp))
  have step2 : SchedStep envRefusedSecond ⟨[[2, 3]], [0, 1], [0, 1], []⟩
      ⟨[[2, 3]], [0, 1], [0], [1]⟩ :=
    SchedStep.settle 1 [[2, 3]] [0, 1] [0, 1] [] (by simp)
  have step3 : SchedStep envRefusedSecond ⟨[[2, 3]], [0, 1], [0], [1]⟩
      ⟨[], [2, 3], [0, 2, 3], [1]⟩ :=
    SchedStep.dispatch [2, 3] [] [0, 1] [0] [1] hsettled
  refine ⟨step3, by simp, ?_, by simp⟩
  exact Relation.ReflTransGen.tail
    (Relation.ReflTransGen.tail (Relation.ReflTransGen.single step1) step2) step3

/-- C7 witness: concurrency 2 over 5 requests against a backend on which
every request resolves; the initial state is reachable and within the
bound. -/
theorem claim_C7_witness :
    (requestGroups 2 5 0).flatten = List.range 5 ∧
    (⟨requestGroups 2 5 0, [], [], []⟩ : SchedState).inFlight.length ≤ 2 :=
  ⟨(claim_C7 envOk 2 5 (by decide) (fun _ => rfl)).1,
   (claim_C7 envOk 2 5 (by decide) (fun _ => rfl)).2.2.1 _ Relation.ReflTransGen.refl⟩

theorem resolved_on_groups {env : Nat → ReqResult} {c n : Nat} (hc : 0 < c)
    (hall : ∀ i, i < n → (env i).isResolved = true) :
    ∀ g ∈ requestGroups c n 0, ∀ i ∈ g, (env i).isResolved = true := by
  intro g hg i hig
  apply hall
  have hmem : i ∈ (requestGroups c n 0).flatten := List.mem_flatten.mpr ⟨g, hg, hig⟩
  rw [requestGroups_flatten hc] at hmem
  exact List.mem_range.mp hmem

theorem results_all_resolved {env : Nat → ReqResult} {c n : Nat} (d : Nat) (hc : 0 < c)
    (hall : ∀ i, i < n → (env i).isResolved = true) :
    (testRunBatches env c n d).results = (List.range n).map (fun i => outcomeOf (env i)) := by
  have hres : (testRunBatches env c n d).results = runGroups env (requestGroups c n 0) := rfl
  rw [hres, runGroups_all_resolved (resolved_on_groups hc hall), requestGroups_flatten hc]

/-- C8: when every request resolves and the measured wall clock is positive,
the recorded duration list covers all N outcomes in dispatch order (failed,
i.e. non-2xx, outcomes included), `requestsPerSecond` is
`round(totalRequests / totalDurationMillis * 1000)`, the latency average is
the mean of all N durations, and min/max are taken over the same list. -/
theorem claim_C8 (env : Nat → ReqResult) (c n d : Nat) (hc : 0 < c) (hn : 0 < n)
    (hd : 0 < d) (hall : ∀ i, i < n → (env i).isResolved = true) :
    (testRunBatches env c n d).results.map (·.duration)
        = (List.range n).map (fun i => (outcomeOf (env i)).duration) ∧
    (testRunBatches env c n d).requestsPerSecond = some ⌊(n : ℚ) / d * 1000 + 1/2⌋ ∧
    (testRunBatches env c n d).avgDuration
        = some ((((((testRunBatches env c n d).results.map (·.duration)).sum : ℕ)) : ℚ) / n) ∧
    (testRunBatches env c n d).minDuration
        = jsMinList ((testRunBatches env c n d).results.map (·.duration)) ∧
    (testRunBatches env c n d).maxDuration
        = jsMaxList ((testRunBatches env c n d).results.map (·.duration)) := by
  have hresults : (testRunBatches env c n d).results
      = (List.range n).map (fun i => outcomeOf (env i)) := results_all_resolved d hc hall
  refine ⟨?_, ?_, ?_, rfl, rfl⟩
  · rw [hresults, List.map_map]
    rfl
  · have hrps : (testRunBatches env c n d).requestsPerSecond
        = if d = 0 then none else some (jsRound ((n : ℚ) / d * 1000)) := rfl
    rw [hrps, if_neg (by omega), jsRound_eq_floor]
  · have havg : (testRunBatches env c n d).avgDuration
        = if ((testRunBatches env c n d).results.map (·.duration)).isEmpty then none
          else some (((((testRunBatches env c n d).results.map (·.duration)).sum : ℕ) : ℚ)
            / (((testRunBatches env c n d).results.map (·.duration)).length : ℚ)) := rfl
    have hlen : ((testRunBatches env c n d).results.map (·.duration)).length = n := by
      rw [hresults]
      simp
    rw [havg, hlen]
    have hne : ¬ ((testRunBatches env c n d).results.map (·.duration)).isEmpty = true := by
      rw [List.isEmpty_iff_length_eq_zero, hlen]
      omega
    rw [if_neg hne]

/-- C8 witness: concurrency 5, 20 requests each resolving 200 in 10 ms,
wall clock 40 ms. -/
theorem claim_C8_witness :
    (testRunBatches envOk 5 20 40).requestsPerSecond
      = some ⌊(20 : ℚ) / 40 * 1000 + 1/2⌋ :=
  (claim_C8 envOk 5 20 40 (by decide) (by decide) (by decide) (fun _ _ => rfl)).2.1

/-- C4: when the preflight health probe is rejected, the run exits with
code 1, dispatches no request beyond the probe, runs no sweep and writes no
report. -/
theorem claim_C4 (env : OrchEnv) (h : env.health.isResolved = false) :
    (runPerformanceTests env).exitCode = 1 ∧
    (runPerformanceTests env).requestsBeyondProbe = 0 ∧
    (runPerformanceTests env).sweepsRun = 0 ∧
    (runPerformanceTests env).reportWritten = false := by
  cases hh : env.health with
  | ok st d sz =>
    rw [hh] at h
    simp [ReqResult.isResolved] at h
  | transportError m => simp [runPerformanceTests, hh]

/-- C4 witness: a concrete unreachable-target environment. -/
theorem claim_C4_witness :
    (runPerformanceTests orchEnvDown).exitCode = 1 ∧
    (runPerformanceTests orchEnvDown).requestsBeyondProbe = 0 ∧
    (runPerformanceTests orchEnvDown).sweepsRun = 0 ∧
    (runPerformanceTests orchEnvDown).reportWritten = false :=
  claim_C4 orchEnvDown rfl

/-- C6 (amended): a filesystem failure while persisting the report is caught
inside `saveResults` and logged (surfaced to the operator), the report value
handed to `saveResults` is left untouched and the generated rating is
independent of the write outcome — but the process still exits 0, not
non-zero (see the counterexample). -/
theorem claim_C6 (env : OrchEnv) (hh : env.health.isResolved = true)
    (hw : env.writeOk = false) :
    (runPerformanceTests env).writeErrorLogged = true ∧
    (∀ txt, (saveResults false txt).errorLogged = true ∧
      (saveResults false txt).reportText = txt) ∧
    (runPerformanceTests env).reportWritten = false ∧
    (runPerformanceTests env).exitCode = 0 ∧
    (runPerformanceTests env).scalabilityRating
      = (runPerformanceTests { env with writeOk := true }).scalabilityRating := by
  cases hhh : env.health with
  | transportError m =>
    rw [hhh] at hh
    simp [ReqResult.isResolved] at hh
  | ok st d sz =>
    refine ⟨?_, fun txt => ⟨rfl, rfl⟩, ?_, ?_, ?_⟩ <;>
      simp [runPerformanceTests, hhh, saveResults, hw, orchBatchRuns]

/-- C6 counterexample: a run whose report write fails still exits 0, against
the claimed non-zero exit. -/
theorem claim_C6_cex : (runPerformanceTests orchEnvWriteFail).exitCode = 0 := rfl

/-- C6 witness: the concrete failing-write environment. -/
theorem claim_C6_witness :
    (runPerformanceTests orchEnvWriteFail).writeErrorLogged = true ∧
    (runPerformanceTests orchEnvWriteFail).reportWritten = false :=
  ⟨(claim_C6 orchEnvWriteFail rfl rfl).1, (claim_C6 orchEnvWriteFail rfl rfl).2.2.1⟩

/-- C9: the report formatter is a function of the `RunReport` alone — its
embedding takes no other state — so structurally identical reports render
byte-identical text. -/
theorem claim_C9 (r1 r2 : RunReport) (h : r1 = r2) :
    formatReportAsText r1 = formatReportAsText r2 := by rw [h]

/-- C9 witness: formatting the concrete sample report twice yields the same
text. -/
theorem claim_C9_witness :
    formatReportAsText sampleReport = formatReportAsText sampleReport :=
  claim_C9 sampleReport sampleReport rfl

/-- C10: every monitor tick leaves `measurements` unchanged — the
`JSON.parse` of the already-parsed health object always throws and is
swallowed — so the Resource Usage Test entry records `measurements = 0` and
`samples = 0` no matter how many ticks fire. -/
theorem claim_C10 (tickEnv : Nat → ReqResult × ReqResult) (ticks : Nat) :
    (testResourceUsage tickEnv ticks).measurements = 0 ∧
    (testResourceUsage tickEnv ticks).samples = 0 := by
  have hfold : ∀ (l : List Nat) (acc : List ResourceMeasurement),
      l.foldl (fun a t => monitorTick (tickEnv t).1 (tickEnv t).2 t a) acc = acc := by
    intro l
    induction l with
    | nil => intro acc; rfl
    | cons x xs ih =>
      intro acc
      rw [List.foldl_cons, monitorTick_id]
      exact ih acc
  constructor <;> simp [testResourceUsage, hfold]

/-- C10 witness: five ticks against a healthy backend still collect zero
samples. -/
theorem claim_C10_witness :
    (testResourceUsage (fun _ => (.ok 200 3 7, .ok 200 3 7)) 5).measurements = 0 :=
  (claim_C10 (fun _ => (.ok 200 3 7, .ok 200 3 7)) 5).1
